import Mathlib

/-!
Verification of the io_uring event-loop core (`src/event_loop`): a shallow
embedding of the reactor's data model and operation handlers, with theorems
checking the natural-language specification against the code.

Modelling conventions:
* Machine integers become `Nat`/`Int` (no overflow is relevant at the sizes
  involved; `EventId` is a 64-bit monotone counter, `Result` a signed 32-bit
  kernel result).
* Pointers into buffer storage are modelled by the offset of the window into
  the storage array (`Buffer.dataPtr`).
* The wall clock (`Clock::now()`) is an explicit parameter, in integer
  nanoseconds; all clock reads inside one handler dispatch are modelled as
  the same instant.
* `double` seconds are modelled as exact rationals (`elapsed / 1e9`).
* Handlers (`std::function` continuations) are Lean functions; an empty
  (default-constructed) `std::function` is `Option.none`.
* Side effects (ring submissions, syscalls) are returned as explicit values.
-/

namespace EventLoopModel

/-- Model of `using EventId = std::uint64_t` (common.h). -/
abbrev EventId := Nat

/-- Model of `using Result = std::int32_t` (common.h). -/
abbrev Result := Int

/-- The part of `EventContext` (common.h) visible to pure handler logic:
the signed kernel result. The `eventLoop` and `stopSource` references are
modelled by returning the handler's effects explicitly. -/
structure EventContext where
  result : Result

/-- Model of `EventContext::resultAsSize` (common.h line 19-22):
`return result > 0 ? (std::size_t)result : 0;`. -/
def EventContext.resultAsSize (c : EventContext) : Nat :=
  if 0 < c.result then c.result.toNat else 0

/-! ### Shared buffer (buffer.cpp)

`BufferData` is the heap-allocated, reference-counted storage; `Buffer` is a
view `(storage, offset, size)`. The C++ view holds a pointer to the shared
`BufferData`; the model inlines the pointed-to record into the view, so an
operation that mutates the shared record returns the updated record and every
view built from it carries the same updated record. A null view
(`mUnderlying == nullptr`, produced by move-out) is outside this model: the
claims checked here quantify over views of live storage. -/

/-- The reference-counted storage (`BufferData`, buffer.cpp): a byte array
(`mData`/`mSize`) plus the use count. Bytes are `Nat`s below 256. -/
structure BufferData where
  storage : List Nat
  useCount : Nat
  deriving Repr, DecidableEq

/-- Model of `BufferData::clear` (buffer.cpp line 19-21): zeroes the entire storage. -/
def BufferData.clearData (d : BufferData) : BufferData :=
  { d with storage := List.replicate d.storage.length 0 }

/-- A live (non-null) buffer view (`Buffer`, buffer.cpp): the shared storage
it points at, plus the window `(mOffset, mSize)`. -/
structure Buffer where
  data : BufferData
  offset : Nat
  mSize : Nat
  deriving Repr, DecidableEq

/-- Model of `Buffer::size` (buffer.cpp line 98-104) for a live view: the window
length `mSize`. -/
def Buffer.size (b : Buffer) : Nat := b.mSize

/-- Model of `Buffer::data` (buffer.cpp line 106-112) for a live view:
`mUnderlying->data() + mOffset`; the pointer is modelled by the offset. -/
def Buffer.dataPtr (b : Buffer) : Nat := b.offset

/-- Model of `Buffer::clear` (buffer.cpp line 114-118): zeroes the *entire* shared
storage, not just the window. -/
def Buffer.clear (b : Buffer) : Buffer :=
  { b with data := b.data.clearData }

/-- The two `std::runtime_error`s thrown by `Buffer::slice`
(buffer.cpp lines 126 and 130). -/
inductive SliceError where
  | offsetTooBig
  | sizeTooBig
  deriving Repr, DecidableEq

/-- Model of `SIZE_MAX + 1` = `2^64`: the parameters and the bounds
arithmetic of `Buffer::slice` are `std::size_t` (64-bit unsigned on the
target platform), so the sum `offset + size` wraps modulo this constant. -/
def sizeTMod : Nat := 18446744073709551616

/-- Model of `Buffer::slice(offset, size)` (buffer.cpp line 120-135) on a live view.
Returns the post-state of the shared storage record (reflected into the
original view) together with either the new view or the thrown error:
```
if (offset >= mUnderlying->size()) throw "offset too big";
if (offset + size > mUnderlying->size()) throw "size too big";
mUnderlying->increaseUse();
return { mUnderlying, offset, size };
```
`offset` and `size` are `std::size_t` values (below `sizeTMod`), and the
second guard computes `offset + size` in `size_t` arithmetic — the sum
wraps modulo `2^64`, so a wrapping pair (e.g. `offset = 1`,
`size = 2^64 - 1`) passes both checks and produces a view whose window
lies outside the storage. -/
def Buffer.slice (b : Buffer) (offset size : Nat) :
    Buffer × Except SliceError Buffer :=
  if b.data.storage.length ≤ offset then
    (b, .error .offsetTooBig)
  else if b.data.storage.length < (offset + size) % sizeTMod then
    (b, .error .sizeTooBig)
  else
    let shared : BufferData := { b.data with useCount := b.data.useCount + 1 }
    ({ b with data := shared }, .ok { data := shared, offset := offset, mSize := size })

/-! ### Kernel timespec and socket addresses -/

/-- Model of `__kernel_timespec`. -/
structure KernelTimespec where
  tvSec : Int
  tvNsec : Int
  deriving Repr, DecidableEq

/-- Model of `createKernelTimeSpec` (loop.cpp line 10-19): splits a positive
nanosecond delay into seconds and nanoseconds; a non-positive delay yields
the zero timespec. Division is on a positive operand, where C++ truncation
and Lean division agree. -/
def createKernelTimeSpec (delayNs : Int) : KernelTimespec :=
  if 0 < delayNs then
    ⟨delayNs / 1000000000, delayNs % 1000000000⟩
  else
    ⟨0, 0⟩

/-- Model of `sockaddr_in`: family, port and IPv4 address in network byte order. -/
structure SockaddrIn where
  sinFamily : Nat
  sinPort : Nat
  sinAddr : Nat
  deriving Repr, DecidableEq

/-- Model of `sockaddr_un`: family and path bytes. -/
structure SockaddrUn where
  sunFamily : Nat
  sunPath : List Nat
  deriving Repr, DecidableEq

/-- Model of `SocketAddress = std::variant<sockaddr_in, sockaddr_un>` (events.h). -/
inductive SocketAddress where
  | inet (a : SockaddrIn)
  | unix (a : SockaddrUn)
  deriving Repr, DecidableEq

/-- Model of `clientAddress = {};` (loop.h line 219): assigning `{}` to the variant
value-initializes its *first* alternative, i.e. an all-zero `sockaddr_in`,
regardless of which alternative was active. -/
def SocketAddress.zeroInit : SocketAddress := .inet ⟨0, 0, 0⟩

/-- Model of `enum class SocketType { Inet, Unix }` (events.h). -/
inductive SocketType where
  | inet
  | unix
  deriving Repr, DecidableEq

/-- Modelled from the spec: `SocketAddress defaultFor(SocketType type)` is
declared in events.h but its definition is not among the provided sources.
Per the spec the accept staging field holds the address family's sockaddr,
so the model returns the zero-initialized sockaddr of the given family. -/
def defaultFor : SocketType → SocketAddress
  | .inet => .inet ⟨0, 0, 0⟩
  | .unix => .unix ⟨0, []⟩

/-- Model of `AF_INET` on Linux. -/
def AF_INET : Nat := 2

/-- Model of `sizeof(socklen_t)` on the target platform (x86-64 Linux): 4 bytes. -/
def sizeofSocklenT : Nat := 4

/-- Model of `sizeof(sockaddr_in)` on the target platform: 16 bytes. -/
def sizeofSockaddrIn : Nat := 16

/-- Model of `sizeof(sockaddr_un)` on the target platform: 110 bytes. -/
def sizeofSockaddrUn : Nat := 110

/-- Model of `htons`: byte-swap of a 16-bit value (x86-64 is little-endian). -/
def htons (x : Nat) : Nat := (x % 256) * 256 + (x / 256) % 256

/-- Model of `htonl`: byte-swap of a 32-bit value. -/
def htonl (x : Nat) : Nat :=
  (x % 256) * 16777216 + ((x / 256) % 256) * 65536 +
    ((x / 65536) % 256) * 256 + (x / 16777216) % 256

/-- Model of `INADDR_ANY`. -/
def INADDR_ANY : Nat := 0

/-! ### Operation types and their completion handlers

Each `XEvent::handle(EventContext&)` (events.cpp, appended to loop.h) is
modelled as a pure function from the event state and context to a record of:
the returned `bool` (`rearm`: `true` keeps the record and means an entry was
re-submitted, `false` lets `EventLoop::run` remove the record), the updated
event state, the response passed to the callback (`none` when the callback
was not invoked), and the list of ring submissions performed on the re-arm
path. -/

/-- Model of `CloseEvent` (events.h): descriptor plus optional continuation. The
`Response` carries the closed descriptor. -/
structure CloseEvent where
  id : EventId
  fd : Int
  callback : Option (EventContext → Int → Unit)

/-- Model of `CloseEvent::handle` (loop.h line 158-165): `if (!callback) return
false; callback(context, { fd }); return false;`. -/
def CloseEvent.handle (e : CloseEvent) (_ctx : EventContext) :
    Bool × Option Int :=
  match e.callback with
  | none => (false, none)
  | some _ => (false, some e.fd)

/-- Model of `TimerEvent::Response` (events.h): elapsed seconds. The C++ `double`
division `(double)elapsed_ns / 1.0E9` is modelled as an exact rational. -/
structure TimerResponse where
  elapsed : ℚ
  deriving DecidableEq

/-- Model of `TimerEvent` (events.h): start instant, duration (nanoseconds) and the
staged `__kernel_timespec` whose address is handed to
`io_uring_prep_timeout`. -/
structure TimerEvent where
  id : EventId
  startTime : Int
  duration : Int
  eventDelay : KernelTimespec
  callback : Option (EventContext → TimerResponse → Bool)

/-- A timeout submission entry: the staged timespec and the stamped
user-data. -/
structure TimerSubmission where
  delay : KernelTimespec
  userData : EventId
  deriving Repr, DecidableEq

/-- Model of `EventLoop::timer(TimerEvent&, SubmitGuard*)` (loop.cpp line 145-157):
computes `sleepTime = max(0ns, duration - (now - startTime))`, stores
`createKernelTimeSpec(sleepTime)` in the event, preps a timeout entry and
stamps `user_data = id`. `now` is the `Clock::now()` read inside the call. -/
def timerSubmit (e : TimerEvent) (now : Int) : TimerEvent × TimerSubmission :=
  let elapsed := now - e.startTime
  let sleepTime := max 0 (e.duration - elapsed)
  let delay := createKernelTimeSpec sleepTime
  ({ e with eventDelay := delay }, ⟨delay, e.id⟩)

/-- Result of `TimerEvent::handle`. -/
structure TimerHandleOut where
  rearm : Bool
  event : TimerEvent
  invoked : Option TimerResponse
  submissions : List TimerSubmission

/-- Model of `TimerEvent::handle` (loop.h line 179-199). `now` models the
`Clock::now()` reads during this dispatch:
```
auto elapsed = Clock::now() - startTime;
if (elapsed >= duration) {
    if (!callback) return false;
    auto elapsedSeconds = (double)elapsed_ns / 1.0E9;
    if (callback(context, { elapsedSeconds })) {
        startTime = Clock::now();
        context.eventLoop.timer(*this, nullptr);
        return true;
    } else return false;
} else {
    // Deadline has not passed (due to other event), reschedule the event
    context.eventLoop.timer(*this, nullptr);
    return true;
}
```
Note: the kernel result `context.result` is never consulted. -/
def TimerEvent.handle (e : TimerEvent) (ctx : EventContext) (now : Int) :
    TimerHandleOut :=
  let elapsed := now - e.startTime
  if e.duration ≤ elapsed then
    match e.callback with
    | none => ⟨false, e, none, []⟩
    | some cb =>
      let resp : TimerResponse := ⟨(elapsed : ℚ) / 1000000000⟩
      if cb ctx resp then
        let e₁ := { e with startTime := now }
        let (e₂, sub) := timerSubmit e₁ now
        ⟨true, e₂, some resp, [sub]⟩
      else
        ⟨false, e, some resp, []⟩
  else
    let (e₁, sub) := timerSubmit e now
    ⟨true, e₁, none, [sub]⟩

/-- Model of `AcceptEvent::Response` (events.h): accepted client socket (the raw
completion result) and the staged peer address. -/
structure AcceptResponse where
  client : Int
  clientAddress : SocketAddress
  deriving Repr, DecidableEq

/-- Model of `AcceptEvent` (events.h line 64-82): listening socket, the peer-address
staging variant, and the address-length field whose default member
initializer is `socklen_t clientAddressLength = sizeof(socklen_t);`
(events.h line 68). -/
structure AcceptEvent where
  id : EventId
  server : Int
  clientAddress : SocketAddress
  clientAddressLength : Nat
  callback : Option (EventContext → AcceptResponse → Bool)

/-- Construction of an `AcceptEvent` by `createEvent<AcceptEvent>(socket,
type, callback)` (loop.cpp line 217-235): the staging address starts as the
family's default sockaddr and the length field keeps its default member
initializer `sizeof(socklen_t)`. -/
def mkAcceptEvent (id : EventId) (server : Int) (type : SocketType)
    (cb : Option (EventContext → AcceptResponse → Bool)) : AcceptEvent :=
  { id := id, server := server, clientAddress := defaultFor type,
    clientAddressLength := sizeofSocklenT, callback := cb }

/-- An accept submission entry (`EventLoop::accept(AcceptEvent&,
SubmitGuard*)`, loop.cpp line 237-251): `io_uring_prep_accept(sqe,
server.fd, &clientAddress, &clientAddressLength, 0)` with
`user_data = id`. The staged address value and length value at submission
time are recorded. -/
structure AcceptSubmission where
  server : Int
  addrStaging : SocketAddress
  addrLen : Nat
  userData : EventId
  deriving Repr, DecidableEq

/-- The prepare-and-stamp step of `EventLoop::accept(AcceptEvent&, ...)`. -/
def acceptSubmit (e : AcceptEvent) : AcceptSubmission :=
  ⟨e.server, e.clientAddress, e.clientAddressLength, e.id⟩

/-- Result of `AcceptEvent::handle`. -/
structure AcceptHandleOut where
  rearm : Bool
  event : AcceptEvent
  invoked : Option AcceptResponse
  submissions : List AcceptSubmission

/-- Model of `AcceptEvent::handle` (loop.h line 212-227):
```
if (!callback) return false;
if (callback(context, { Socket { context.result }, clientAddress })
    && context.result > 0) {
    clientAddress = {};              // zero the data
    context.eventLoop.accept(*this, nullptr);
    return true;
}
return false;
```
-/
def AcceptEvent.handle (e : AcceptEvent) (ctx : EventContext) :
    AcceptHandleOut :=
  match e.callback with
  | none => ⟨false, e, none, []⟩
  | some cb =>
    let resp : AcceptResponse := ⟨ctx.result, e.clientAddress⟩
    if cb ctx resp = true ∧ 0 < ctx.result then
      let e₁ := { e with clientAddress := SocketAddress.zeroInit }
      ⟨true, e₁, some resp, [acceptSubmit e₁]⟩
    else
      ⟨false, e, some resp, []⟩

/-- Model of `ConnectEvent::Response.error` is `tryExtractError(context.result)`
(common.cpp line 30-36): none for a non-negative result, otherwise the
`strerror` rendering of `-result`. The model keeps the numeric code
`-result`; the string table lives in the C library, outside this repo. -/
def tryExtractError (result : Int) : Option Int :=
  if 0 ≤ result then none else some (-result)

/-- Model of `ConnectEvent::Response` content visible to the model. -/
structure ConnectResponse where
  client : Int
  serverAddress : SocketAddress
  error : Option Int
  deriving Repr, DecidableEq

/-- Model of `ConnectEvent` (events.h). -/
structure ConnectEvent where
  id : EventId
  client : Int
  serverAddress : SocketAddress
  callback : Option (EventContext → ConnectResponse → Unit)

/-- Model of `ConnectEvent::handle` (loop.h line 257-264): invoke the callback (if
any) with the client, the server address and `tryExtractError(result)`;
always return `false`. -/
def ConnectEvent.handle (e : ConnectEvent) (ctx : EventContext) :
    Bool × Option ConnectResponse :=
  match e.callback with
  | none => (false, none)
  | some _ => (false, some ⟨e.client, e.serverAddress, tryExtractError ctx.result⟩)

/-- Model of `ReceiveEvent::Response` (events.h): socket, buffer data pointer and
byte count. -/
structure ReceiveResponse where
  client : Int
  dataPtr : Nat
  size : Nat
  deriving Repr, DecidableEq

/-- Model of `ReceiveEvent` (events.h). -/
structure ReceiveEvent where
  id : EventId
  client : Int
  buffer : Buffer
  callback : Option (EventContext → ReceiveResponse → Bool)

/-- A recv submission entry (`EventLoop::receive(ReceiveEvent&, ...)`,
loop.cpp line 313-320): `io_uring_prep_recv(sqe, client.fd, buffer.data(),
buffer.size(), 0)`, `user_data = id`. -/
structure RecvSubmission where
  client : Int
  bufPtr : Nat
  len : Nat
  userData : EventId
  deriving Repr, DecidableEq

/-- The prepare-and-stamp step of `EventLoop::receive(ReceiveEvent&, ...)`. -/
def receiveSubmit (e : ReceiveEvent) : RecvSubmission :=
  ⟨e.client, e.buffer.dataPtr, e.buffer.size, e.id⟩

/-- Result of `ReceiveEvent::handle`. -/
structure ReceiveHandleOut where
  rearm : Bool
  event : ReceiveEvent
  invoked : Option ReceiveResponse
  submissions : List RecvSubmission

/-- Model of `ReceiveEvent::handle` (loop.h line 277-292):
```
if (!callback) return false;
if (callback(context, { client, buffer.data(), context.resultAsSize() })
    && context.result > 0) {
    buffer.clear();              // zero the data
    context.eventLoop.receive(*this, nullptr);
    return true;
}
return false;
```
-/
def ReceiveEvent.handle (e : ReceiveEvent) (ctx : EventContext) :
    ReceiveHandleOut :=
  match e.callback with
  | none => ⟨false, e, none, []⟩
  | some cb =>
    let resp : ReceiveResponse := ⟨e.client, e.buffer.dataPtr, ctx.resultAsSize⟩
    if cb ctx resp = true ∧ 0 < ctx.result then
      let e₁ := { e with buffer := e.buffer.clear }
      ⟨true, e₁, some resp, [receiveSubmit e₁]⟩
    else
      ⟨false, e, some resp, []⟩

/-- Model of `SendEvent::Response` (events.h): socket and byte count. -/
structure SendResponse where
  client : Int
  size : Nat
  deriving Repr, DecidableEq

/-- Model of `SendEvent` (events.h). -/
structure SendEvent where
  id : EventId
  client : Int
  data : Buffer
  callback : Option (EventContext → SendResponse → Unit)

/-- Model of `SendEvent::handle` (loop.h line 305-312): invoke the callback (if any)
with `{ client, context.resultAsSize() }`; always return `false`. -/
def SendEvent.handle (e : SendEvent) (ctx : EventContext) :
    Bool × Option SendResponse :=
  match e.callback with
  | none => (false, none)
  | some _ => (false, some ⟨e.client, ctx.resultAsSize⟩)

/-- Model of `OpenFileEvent` (events.h). -/
structure OpenFileEvent where
  id : EventId
  path : List Nat
  flags : Int
  mode : Nat
  callback : Option (EventContext → Int → Unit)

/-- Model of `OpenFileEvent::handle` (loop.h line 325-332): invoke the callback (if
any) with `File { context.result }`; always return `false`. -/
def OpenFileEvent.handle (e : OpenFileEvent) (ctx : EventContext) :
    Bool × Option Int :=
  match e.callback with
  | none => (false, none)
  | some _ => (false, some ctx.result)

/-- Model of `ReadFileEvent::Response` (events.h): file, data pointer, byte count and
the offset the read was issued at. -/
structure ReadFileResponse where
  file : Int
  dataPtr : Nat
  size : Nat
  offset : Nat
  deriving Repr, DecidableEq

/-- Model of `ReadFileEvent` (events.h). -/
structure ReadFileEvent where
  id : EventId
  file : Int
  offset : Nat
  buffer : Buffer
  callback : Option (EventContext → ReadFileResponse → Bool)

/-- A read submission entry (`EventLoop::readFile(ReadFileEvent&, ...)`,
loop.cpp line 374-381): `io_uring_prep_read(sqe, file.fd, buffer.data(),
buffer.size(), offset)`, `user_data = id`. -/
structure ReadSubmission where
  file : Int
  bufPtr : Nat
  len : Nat
  offset : Nat
  userData : EventId
  deriving Repr, DecidableEq

/-- The prepare-and-stamp step of `EventLoop::readFile(ReadFileEvent&, ...)`. -/
def readFileSubmit (e : ReadFileEvent) : ReadSubmission :=
  ⟨e.file, e.buffer.dataPtr, e.buffer.size, e.offset, e.id⟩

/-- Result of `ReadFileEvent::handle`. -/
structure ReadFileHandleOut where
  rearm : Bool
  event : ReadFileEvent
  invoked : Option ReadFileResponse
  submissions : List ReadSubmission

/-- Model of `ReadFileEvent::handle` (loop.h line 345-362):
```
if (!callback) return false;
if (callback(context, { file, buffer.data(), context.resultAsSize(), offset })
    && context.result > 0) {
    offset += context.result;
    buffer.clear();              // zero the data
    context.eventLoop.readFile(*this, nullptr);
    return true;
}
return false;
```
-/
def ReadFileEvent.handle (e : ReadFileEvent) (ctx : EventContext) :
    ReadFileHandleOut :=
  match e.callback with
  | none => ⟨false, e, none, []⟩
  | some cb =>
    let resp : ReadFileResponse :=
      ⟨e.file, e.buffer.dataPtr, ctx.resultAsSize, e.offset⟩
    if cb ctx resp = true ∧ 0 < ctx.result then
      let e₁ := { e with offset := e.offset + ctx.result.toNat,
                         buffer := e.buffer.clear }
      ⟨true, e₁, some resp, [readFileSubmit e₁]⟩
    else
      ⟨false, e, some resp, []⟩

/-- Model of `WriteFileEvent` (events.h). -/
structure WriteFileEvent where
  id : EventId
  file : Int
  data : Buffer
  callback : Option (EventContext → Int → Nat → Unit)

/-- Model of `WriteFileEvent::handle` (loop.h line 375-382): invoke the callback (if
any) with `{ file, context.resultAsSize() }`; always return `false`. -/
def WriteFileEvent.handle (e : WriteFileEvent) (ctx : EventContext) :
    Bool × Option (Int × Nat) :=
  match e.callback with
  | none => (false, none)
  | some _ => (false, some (e.file, ctx.resultAsSize))

/-- Model of `ReadFileStatsEvent` (events.h); the `struct statx` payload is opaque
to the reactor's control flow and modelled as a `Nat` blob. -/
structure ReadFileStatsEvent where
  id : EventId
  path : List Nat
  stats : Nat
  callback : Option (EventContext → Option Nat → Unit)

/-- Model of `ReadFileStatsEvent::handle` (loop.h line 396-408): the response stats
field is filled only when `context.result >= 0`; always return `false`. -/
def ReadFileStatsEvent.handle (e : ReadFileStatsEvent) (ctx : EventContext) :
    Bool × Option (Option Nat) :=
  match e.callback with
  | none => (false, none)
  | some _ => (false, some (if 0 ≤ ctx.result then some e.stats else none))

/-! ### Submission discipline and the batch guard (loop.cpp) -/

/-- The ring, seen from the submission side: the user-data stamps of the
prepared (not yet reaped) submission entries, and the number of
`io_uring_submit` calls made so far. -/
structure RingState where
  sqes : List EventId
  submitCalls : Nat
  deriving Repr, DecidableEq

/-- Model of `SubmitGuard` (loop.h line 47-59): the pending counter `mSubmitted`. -/
structure SubmitGuard where
  mSubmitted : Nat
  deriving Repr, DecidableEq

/-- Model of `SubmitGuard::submit` (loop.cpp line 61-63): `mSubmitted++`. -/
def SubmitGuard.submit (g : SubmitGuard) : SubmitGuard :=
  ⟨g.mSubmitted + 1⟩

/-- Model of `EventLoop::submitRing(SubmitGuard*)` (loop.cpp line 483-489): with a
live guard, only the guard's pending counter is incremented; without one,
`io_uring_submit` is called. -/
def submitRing (ring : RingState) (guard : Option SubmitGuard) :
    RingState × Option SubmitGuard :=
  match guard with
  | some g => (ring, some g.submit)
  | none => ({ ring with submitCalls := ring.submitCalls + 1 }, none)

/-- Model of `SubmitGuard::~SubmitGuard` (loop.cpp line 54-59): if the pending
counter is positive, submit the ring once (via `submitRing(nullptr)`) and
reset the counter; otherwise do nothing. -/
def SubmitGuard.destroy (ring : RingState) (g : SubmitGuard) :
    RingState × SubmitGuard :=
  if 0 < g.mSubmitted then
    ((submitRing ring none).1, ⟨0⟩)
  else
    (ring, g)

/-- The registry-and-ring state a public operation acts on: the ring, the
next-identifier counter `mNextEventId` and the identifiers registered in
`mEvents`. -/
structure LoopState where
  ring : RingState
  nextEventId : EventId
  events : List EventId
  deriving Repr, DecidableEq

/-- The shared shape of every public operation (loop.cpp; e.g.
`EventLoop::send`, line 322-339): `createEvent` registers a record under a
fresh identifier and bumps `mNextEventId` (loop.h line 133-139), `getSqe`
obtains an entry, the prep step stamps `sqe->user_data = event.id`, and
`submitRing(submit)` either submits the ring (no guard) or increments the
guard's pending counter. -/
def submitOp (s : LoopState) (guard : Option SubmitGuard) :
    LoopState × Option SubmitGuard :=
  let id := s.nextEventId
  let ring₁ : RingState := { s.ring with sqes := s.ring.sqes ++ [id] }
  let (ring₂, guard₁) := submitRing ring₁ guard
  ({ ring := ring₂, nextEventId := id + 1, events := id :: s.events }, guard₁)

/-- The convenience overload `EventLoop::openFile(path, callback, submit)`
(loop.cpp line 341-343). Its body is
`openFile(std::move(path), 0, 0, std::move(callback));` — the `submit`
argument is NOT forwarded, so the inner call runs with the default
`submit = nullptr` and submits the ring immediately; the caller's guard is
left untouched. -/
def openFileDefault (s : LoopState) (guard : Option SubmitGuard) :
    LoopState × Option SubmitGuard :=
  let (s₁, _) := submitOp s none
  (s₁, guard)

/-! ### The main loop's completion dispatch and the registry invariant
(`EventLoop::run`, loop.cpp line 73-99) -/

/-- What `EventLoop::run` does with a dequeued completion, as a function of
the registered identifiers, the handler verdicts and the completion's
user-data. The source (loop.cpp line 87-94) is:
```
auto eventId = cqe->user_data;
auto& event = mEvents[eventId];
EventContext context { *this, stopSource, cqe->res };
if (!event->handle(context)) removeEvent(eventId);
```
`mEvents` is a `std::unordered_map<EventId, std::unique_ptr<Event>>`; when
`eventId` is absent, `operator[]` inserts a null `unique_ptr` and
`event->handle(context)` calls a virtual function through a null pointer
(undefined behavior). There is no branch producing an internal-error
rejection; the `rejectedInternalError` constructor exists only as
vocabulary for the spec's claimed behavior. `handleVerdict` abstracts the
virtual `Event::handle` dispatch. -/
inductive DispatchOutcome where
  | dispatched (rearm : Bool)
  | nullHandleCall
  | rejectedInternalError
  deriving Repr, DecidableEq

/-- The completion-dispatch step of `EventLoop::run` (loop.cpp line 87-94). -/
def runDispatch (events : List EventId) (handleVerdict : EventId → Bool)
    (userData : EventId) : DispatchOutcome :=
  if userData ∈ events then .dispatched (handleVerdict userData)
  else .nullHandleCall

/-- Registry/ring bookkeeping state for the lifetime trace of operation
records: registered identifiers and the user-data stamps of in-flight
entries. -/
structure RegState where
  nextEventId : EventId
  events : List EventId
  inflight : List EventId
  deriving Repr, DecidableEq

/-- The construction state of `EventLoop` (loop.h line 67-68):
`mNextEventId = 1`, no records, nothing in flight. -/
def RegState.init : RegState := ⟨1, [], []⟩

/-- The record-lifetime transitions of the reactor:
* `submitOk` — a public operation runs to completion of its submit path:
  `createEvent` registers a fresh identifier, the entry is stamped with it
  (loop.h line 133-139 then e.g. loop.cpp line 332-339);
* `submitFail` — a step between record creation and submit throws, and the
  `catch` block rolls the record back via `removeEvent` (e.g. loop.cpp
  line 324-329); no entry was (successfully) submitted;
* `complete id rearm` — the loop dequeues a completion for `id` and the
  record's handler returns `rearm`; on `true` the record is retained and an
  entry with the same user-data was re-submitted, on `false` the record is
  removed (loop.cpp line 87-94). -/
inductive RegStep where
  | submitOk
  | submitFail
  | complete (id : EventId) (rearm : Bool)

/-- One transition; `none` when the step is not enabled (a completion can
only be dequeued for an in-flight entry). -/
def regStepFn (s : RegState) : RegStep → Option RegState
  | .submitOk =>
    some ⟨s.nextEventId + 1, s.nextEventId :: s.events,
          s.nextEventId :: s.inflight⟩
  | .submitFail =>
    some ⟨s.nextEventId + 1, s.events, s.inflight⟩
  | .complete id rearm =>
    if id ∈ s.inflight then
      if rearm then
        some ⟨s.nextEventId, s.events, id :: s.inflight.erase id⟩
      else
        some ⟨s.nextEventId, s.events.erase id, s.inflight.erase id⟩
    else
      none

/-- Run a list of steps from a state; fails if any step is not enabled. -/
def regRun (s : RegState) : List RegStep → Option RegState
  | [] => some s
  | step :: rest =>
    match regStepFn s step with
    | some s₁ => regRun s₁ rest
    | none => none

/-- The bookkeeping invariant of the reactor: identifiers are unique and
fresh, and every in-flight entry's user-data is a registered identifier. -/
def RegInv (s : RegState) : Prop :=
  s.events.Nodup ∧ s.inflight.Nodup ∧
    (∀ id ∈ s.inflight, id ∈ s.events) ∧
    (∀ id ∈ s.events, id < s.nextEventId)

/-! ### Listener construction (`EventLoop::tcpListen`, loop.cpp 159-181) -/

/-- The synchronous socket syscalls `tcpListen` performs, in order. -/
inductive NetEffect where
  | socketCreate (domain : Nat) (sockKind : Nat)
  | setReuseAddr
  | bindTo (addr : SockaddrIn)
  | listenWith (backlog : Nat)
  deriving Repr, DecidableEq

/-- Model of `PF_INET`. -/
def PF_INET : Nat := 2

/-- Model of `SOCK_STREAM`. -/
def SOCK_STREAM : Nat := 1

/-- The `TcpListener` returned by `tcpListen`: socket plus the address
structure that was passed to `bind`. -/
structure TcpListenerM where
  socket : Int
  address : SockaddrIn
  deriving Repr, DecidableEq

/-- Model of `EventLoop::tcpListen(address, port, backlog)` (loop.cpp line 159-181),
on the success path; `socketFd` is the descriptor returned by `socket`.
```
auto socketFd = socket(PF_INET, SOCK_STREAM, 0);
setsockopt(socketFd, SOL_SOCKET, SO_REUSEADDR, ...);
sockaddr_in socketAddress {};
socketAddress.sin_family = AF_INET;
socketAddress.sin_addr = address;
socketAddress.sin_port = htons(port);
socketAddress.sin_addr.s_addr = htonl(INADDR_ANY);   // overwrites address
bind(socketFd, &socketAddress, sizeof(socketAddress));
listen(socketFd, backlog);
return TcpListener { Socket { socketFd }, socketAddress };
```
-/
def tcpListen (socketFd : Int) (address : Nat) (port : Nat) (backlog : Nat) :
    List NetEffect × TcpListenerM :=
  let addr₀ : SockaddrIn := ⟨AF_INET, htons port, address⟩
  let addr₁ : SockaddrIn := { addr₀ with sinAddr := htonl INADDR_ANY }
  ([.socketCreate PF_INET SOCK_STREAM, .setReuseAddr, .bindTo addr₁,
    .listenWith backlog],
   ⟨socketFd, addr₁⟩)

/-! ### Read-line (`EventLoop::readLine`, loop.cpp 421-448)

`readLine` wraps `readFile` on standard input with a lambda owning an
accumulator `line`. Per completion the lambda scans
`response.size` bytes:
```
if (!callback) return false;
char* text = (char*)response.data;
for (std::size_t i = 0; i < response.size; i++) {
    auto current = text[i];
    line += current;
    if (current == '\n') {
        if (!callback(context, { line })) return false;
        line.clear();
    }
}
return true;
```
The model returns the lines the caller's handler was invoked with (in
order), the accumulator after the scan, and the lambda's `bool` verdict. -/

/-- The byte scan of the `readLine` lambda for a present caller handler.
`cb` is the caller's line handler (its context argument is irrelevant to
the scan and omitted). -/
def readLineScan (cb : String → Bool) (line : String) :
    List Char → List String × String × Bool
  | [] => ([], line, true)
  | c :: rest =>
    if c = '\n' then
      if cb (line.push c) then
        ((line.push c) :: (readLineScan cb "" rest).1,
          (readLineScan cb "" rest).2.1, (readLineScan cb "" rest).2.2)
      else
        ([line.push c], line.push c, false)
    else
      readLineScan cb (line.push c) rest

/-- One completion of the `readLine` lambda: empty caller handler means the
lambda returns `false` without scanning; otherwise the scan runs over the
completed bytes. -/
def readLineHandle (cb : Option (String → Bool)) (line : String)
    (bytes : List Char) : List String × String × Bool :=
  match cb with
  | none => ([], line, false)
  | some f => readLineScan f line bytes

/-! ### Theorems -/

theorem resultAsSize_nonpos {r : Int} (h : r ≤ 0) :
    EventContext.resultAsSize ⟨r⟩ = 0 := by
  simp [EventContext.resultAsSize, not_lt.mpr h]

/-- C5 counterexample: on a 3-byte storage, `slice(1, 2^64 - 1)` has
`offset + length > storage.size` mathematically — the claim demands an
out-of-range failure — yet the code computes the guard `offset + size >
mUnderlying->size()` in `size_t` arithmetic, where `1 + (2^64 - 1)` wraps
to 0, so both checks pass and the slice *succeeds*, returning a view whose
window lies far outside the storage. -/
theorem slice_wrap_escapes_check :
    (Buffer.slice ⟨⟨[10, 20, 30], 1⟩, 0, 3⟩ 1 (sizeTMod - 1)).2 =
      .ok ⟨⟨[10, 20, 30], 2⟩, 1, sizeTMod - 1⟩ ∧
    (3 : Nat) < 1 + (sizeTMod - 1) := by
  constructor
  · rfl
  · decide

/-- C5 (amended): on a view of live storage, with `offset` and `length`
being `size_t` values, `slice(offset, length)` fails exactly when
`offset ≥ storage.size` or `(offset + length) mod 2^64 > storage.size` —
the bounds sum is computed in `size_t` arithmetic, so a wrapping sum passes
the check; a failed slice leaves the view (and hence the reference count)
unchanged; a successful slice yields a view over the same storage with
window `(offset, length)` and the shared reference count incremented by
one. -/
theorem slice_spec (b : Buffer) (offset size : Nat)
    (_hoff : offset < sizeTMod) (_hsz : size < sizeTMod) :
    (((b.slice offset size).2.isOk = false) ↔
      (b.data.storage.length ≤ offset ∨
        b.data.storage.length < (offset + size) % sizeTMod)) ∧
    ((b.data.storage.length ≤ offset ∨
        b.data.storage.length < (offset + size) % sizeTMod) →
      (b.slice offset size).1 = b) ∧
    (offset < b.data.storage.length →
      (offset + size) % sizeTMod ≤ b.data.storage.length →
      (b.slice offset size).1.data.storage = b.data.storage ∧
      (b.slice offset size).1.data.useCount = b.data.useCount + 1 ∧
      (b.slice offset size).1.offset = b.offset ∧
      (b.slice offset size).1.mSize = b.mSize ∧
      (b.slice offset size).2 =
        .ok ⟨(b.slice offset size).1.data, offset, size⟩) := by
  unfold Buffer.slice
  split
  · case isTrue h =>
    refine ⟨?_, fun _ => rfl, fun h₁ _ => absurd h (not_le.mpr h₁)⟩
    simp [Except.isOk, Except.toBool]
    exact Or.inl h
  · case isFalse h =>
    split
    · case isTrue h₂ =>
      refine ⟨?_, fun _ => rfl, fun _ hle => absurd h₂ (not_lt.mpr hle)⟩
      simp [Except.isOk, Except.toBool]
      exact Or.inr h₂
    · case isFalse h₂ =>
      refine ⟨?_, fun hor => ?_, fun _ _ => ⟨rfl, rfl, rfl, rfl, rfl⟩⟩
      · simp [Except.isOk, Except.toBool]
        exact ⟨not_le.mp h, not_lt.mp h₂⟩
      · exact absurd hor (not_or.mpr ⟨h, h₂⟩)

/-- C5 witness: a concrete 3-byte storage; slicing `(1, 2)` succeeds and
bumps the use count, slicing `(3, 0)` fails untouched. -/
theorem slice_spec_witness :
    ((Buffer.slice ⟨⟨[10, 20, 30], 1⟩, 0, 3⟩ 1 2).1.data.useCount = 1 + 1 ∧
      (Buffer.slice ⟨⟨[10, 20, 30], 1⟩, 0, 3⟩ 1 2).2 =
        .ok ⟨(Buffer.slice ⟨⟨[10, 20, 30], 1⟩, 0, 3⟩ 1 2).1.data, 1, 2⟩) ∧
    (Buffer.slice ⟨⟨[10, 20, 30], 1⟩, 0, 3⟩ 3 0).1 = ⟨⟨[10, 20, 30], 1⟩, 0, 3⟩ := by
  have h₁ := slice_spec ⟨⟨[10, 20, 30], 1⟩, 0, 3⟩ 1 2 (by decide) (by decide)
  have h₂ := slice_spec ⟨⟨[10, 20, 30], 1⟩, 0, 3⟩ 3 0 (by decide) (by decide)
  have h₃ := h₁.2.2 (by decide) (by decide)
  exact ⟨⟨h₃.2.1, h₃.2.2.2.2⟩, h₂.2.1 (by decide)⟩

/-- C9: a negative kernel result is delivered to the receive, send,
read-file and write-file responses with byte count 0; the whole handler
outcome is identical to that of a zero-byte completion, the sign being
visible only in the context's raw `result` field. -/
theorem negative_result_as_zero (r : Int) (hr : r < 0)
    (e₁ : ReceiveEvent) (e₂ : SendEvent) (e₃ : ReadFileEvent)
    (e₄ : WriteFileEvent) :
    EventContext.resultAsSize ⟨r⟩ = 0 ∧
    EventContext.resultAsSize ⟨0⟩ = 0 ∧
    ReceiveEvent.handle e₁ ⟨r⟩ = ReceiveEvent.handle e₁ ⟨0⟩ ∧
    SendEvent.handle e₂ ⟨r⟩ = SendEvent.handle e₂ ⟨0⟩ ∧
    ReadFileEvent.handle e₃ ⟨r⟩ = ReadFileEvent.handle e₃ ⟨0⟩ ∧
    WriteFileEvent.handle e₄ ⟨r⟩ = WriteFileEvent.handle e₄ ⟨0⟩ := by
  have hz := resultAsSize_nonpos (le_of_lt hr)
  have hz0 := resultAsSize_nonpos (le_refl (0 : Int))
  refine ⟨hz, hz0, ?_, ?_, ?_, ?_⟩
  · unfold ReceiveEvent.handle
    cases e₁.callback with
    | none => rfl
    | some cb =>
      dsimp only
      rw [hz, hz0]
      split_ifs with h₁ h₂ h₂
      all_goals first
      | rfl
      | exact absurd h₁.2 (not_lt.mpr hr.le)
      | exact absurd h₂.2 (lt_irrefl 0)
  · unfold SendEvent.handle
    cases e₂.callback with
    | none => rfl
    | some cb => rw [hz, hz0]
  · unfold ReadFileEvent.handle
    cases e₃.callback with
    | none => rfl
    | some cb =>
      dsimp only
      rw [hz, hz0]
      split_ifs with h₁ h₂ h₂
      all_goals first
      | rfl
      | exact absurd h₁.2 (not_lt.mpr hr.le)
      | exact absurd h₂.2 (lt_irrefl 0)
  · unfold WriteFileEvent.handle
    cases e₄.callback with
    | none => rfl
    | some cb => rw [hz, hz0]

/-- C9 witness: result −5 on a concrete receive event is handled exactly
like result 0. -/
theorem negative_result_as_zero_witness :
    EventContext.resultAsSize ⟨-5⟩ = 0 ∧
    ReceiveEvent.handle ⟨1, 3, ⟨⟨[0, 0], 1⟩, 0, 2⟩, none⟩ ⟨-5⟩ =
      ReceiveEvent.handle ⟨1, 3, ⟨⟨[0, 0], 1⟩, 0, 2⟩, none⟩ ⟨0⟩ := by
  have h := negative_result_as_zero (-5) (by decide)
    ⟨1, 3, ⟨⟨[0, 0], 1⟩, 0, 2⟩, none⟩ ⟨1, 3, ⟨⟨[0, 0], 1⟩, 0, 2⟩, none⟩
    ⟨1, 1, 0, ⟨⟨[0, 0], 1⟩, 0, 2⟩, none⟩ ⟨1, 1, ⟨⟨[0, 0], 1⟩, 0, 2⟩, none⟩
  exact ⟨h.1, h.2.2.1⟩

/-- C3: with a live batch guard every operation that forwards the guard
only increments its pending counter and performs no ring submission;
destroying a guard with positive counter submits exactly once, with zero
counter not at all. The flagless convenience overload
`EventLoop::openFile(path, callback, submit)` however drops its `submit`
argument and submits the ring immediately, leaving the live guard's
counter untouched. -/
theorem batch_guard_submission (s : LoopState) (r : RingState)
    (g : SubmitGuard) (k : Nat) :
    (submitOp s (some g)).1.ring.submitCalls = s.ring.submitCalls ∧
    (submitOp s (some g)).2 = some ⟨g.mSubmitted + 1⟩ ∧
    (SubmitGuard.destroy r ⟨k + 1⟩).1.submitCalls = r.submitCalls + 1 ∧
    (SubmitGuard.destroy r ⟨0⟩).1 = r ∧
    (openFileDefault s (some g)).1.ring.submitCalls = s.ring.submitCalls + 1 ∧
    (openFileDefault s (some g)).2 = some g := by
  refine ⟨rfl, rfl, ?_, rfl, rfl, rfl⟩
  simp [SubmitGuard.destroy, submitRing]

/-- C6 counterexample: `tcpListen` invoked with the concrete caller address
16909060 (1.2.3.4) does not bind to it; the address handed to `bind` (and
returned in the listener) carries `sinAddr = 0` (`INADDR_ANY`) instead. -/
theorem tcpListen_ignores_address :
    (tcpListen 3 16909060 9000 32).1 =
      [.socketCreate PF_INET SOCK_STREAM, .setReuseAddr,
       .bindTo ⟨AF_INET, htons 9000, 0⟩, .listenWith 32] ∧
    (tcpListen 3 16909060 9000 32).2.address.sinAddr = 0 ∧
    (0 : Nat) ≠ 16909060 := by
  refine ⟨rfl, rfl, by decide⟩

/-- C6 (amended): `tcpListen(addr, port, backlog)` creates a stream socket,
enables address reuse, binds to `(INADDR_ANY, htons port)` — the
caller-supplied address is overwritten with `htonl(INADDR_ANY)` — listens
with the given backlog, and returns the socket together with the address
structure actually bound. -/
theorem tcpListen_spec (socketFd : Int) (address port backlog : Nat) :
    tcpListen socketFd address port backlog =
      ([.socketCreate PF_INET SOCK_STREAM, .setReuseAddr,
        .bindTo ⟨AF_INET, htons port, htonl INADDR_ANY⟩,
        .listenWith backlog],
       ⟨socketFd, ⟨AF_INET, htons port, htonl INADDR_ANY⟩⟩) := rfl

/-- C8: one completed read delivering the bytes `"abc\ndef\n"` to the
read-line lambda with an empty accumulator invokes the caller's handler
exactly twice — first with `"abc\n"`, then with `"def\n"` — and, the
handler continuing, ends with a reset accumulator and verdict `continue`. -/
theorem readLineScan_cons (cb : String → Bool) (line : String) (c : Char)
    (rest : List Char) :
    readLineScan cb line (c :: rest) =
      if c = '\n' then
        (if cb (line.push c) then
          ((line.push c) :: (readLineScan cb "" rest).1,
            (readLineScan cb "" rest).2.1, (readLineScan cb "" rest).2.2)
        else ([line.push c], line.push c, false))
      else readLineScan cb (line.push c) rest := rfl

theorem readLine_two_lines (cb : String → Bool)
    (h₁ : cb "abc\n" = true) (h₂ : cb "def\n" = true) :
    readLineHandle (some cb) "" "abc\ndef\n".toList =
      (["abc\n", "def\n"], "", true) := by
  have hl : "abc\ndef\n".toList =
      ['a', 'b', 'c', '\n', 'd', 'e', 'f', '\n'] := rfl
  rw [readLineHandle, hl]
  rw [readLineScan_cons, if_neg (by decide)]
  rw [readLineScan_cons, if_neg (by decide)]
  rw [readLineScan_cons, if_neg (by decide)]
  rw [show ((("" : String).push 'a').push 'b').push 'c' = "abc" from rfl]
  rw [readLineScan_cons, if_pos rfl]
  rw [show ("abc" : String).push '\n' = "abc\n" from rfl, h₁, if_pos rfl]
  rw [readLineScan_cons, if_neg (by decide)]
  rw [readLineScan_cons, if_neg (by decide)]
  rw [readLineScan_cons, if_neg (by decide)]
  rw [show ((("" : String).push 'd').push 'e').push 'f' = "def" from rfl]
  rw [readLineScan_cons, if_pos rfl]
  rw [show ("def" : String).push '\n' = "def\n" from rfl, h₂, if_pos rfl]
  rfl

/-- C8 witness: the always-continue handler at the concrete input. -/
theorem readLine_two_lines_witness :
    readLineHandle (some fun _ => true) "" "abc\ndef\n".toList =
      (["abc\n", "def\n"], "", true) :=
  readLine_two_lines (fun _ => true) rfl rfl

/-- C2 counterexample: a timer completion carrying the kernel result −62
(`-ETIME`, the usual result of a timeout completion) whose handler returns
`continue` re-arms even though the result is negative — the timer handler
never consults the kernel result, contradicting "re-arms exactly when the
handler returns continue AND the kernel result is positive". -/
theorem timer_rearms_on_negative_result :
    (TimerEvent.handle ⟨1, 0, 1000, ⟨0, 0⟩, some fun _ _ => true⟩
        ⟨-62⟩ 2000).rearm = true ∧
    ((-62 : Int) < 0) := ⟨rfl, by decide⟩

/-- C2 (amended): for the result-checking repeatable operations — accept,
receive, read-file — the handler re-arms exactly when the callback returns
`continue` and the kernel result is positive (so e.g. a receive completing
with zero bytes is never re-armed); the timer is the exception: it ignores
the kernel result and re-arms exactly when either the deadline has passed
and the callback returns `continue`, or the deadline has not yet passed
(in which case the callback is not even consulted). -/
theorem rearm_exactly_when (a : AcceptEvent) (rv : ReceiveEvent)
    (rf : ReadFileEvent) (t : TimerEvent) (ctx : EventContext) (now : Int)
    (cba : EventContext → AcceptResponse → Bool)
    (cbr : EventContext → ReceiveResponse → Bool)
    (cbf : EventContext → ReadFileResponse → Bool)
    (cbt : EventContext → TimerResponse → Bool)
    (ha : a.callback = some cba) (hr : rv.callback = some cbr)
    (hf : rf.callback = some cbf) (ht : t.callback = some cbt) :
    ((a.handle ctx).rearm = true ↔
      (cba ctx ⟨ctx.result, a.clientAddress⟩ = true ∧ 0 < ctx.result)) ∧
    ((rv.handle ctx).rearm = true ↔
      (cbr ctx ⟨rv.client, rv.buffer.dataPtr, ctx.resultAsSize⟩ = true ∧
        0 < ctx.result)) ∧
    ((rf.handle ctx).rearm = true ↔
      (cbf ctx ⟨rf.file, rf.buffer.dataPtr, ctx.resultAsSize, rf.offset⟩ = true ∧
        0 < ctx.result)) ∧
    ((t.handle ctx now).rearm = true ↔
      (if t.duration ≤ now - t.startTime
       then cbt ctx ⟨((now - t.startTime : Int) : ℚ) / 1000000000⟩ = true
       else True)) := by
  refine ⟨?_, ?_, ?_, ?_⟩
  · unfold AcceptEvent.handle
    rw [ha]
    dsimp only
    split_ifs with h
    · simp [h]
    · simpa using h
  · unfold ReceiveEvent.handle
    rw [hr]
    dsimp only
    split_ifs with h
    · simp [h]
    · simpa using h
  · unfold ReadFileEvent.handle
    rw [hf]
    dsimp only
    split_ifs with h
    · simp [h]
    · simpa using h
  · unfold TimerEvent.handle
    rw [ht]
    dsimp only
    split_ifs with h₁ h₂
    · rw [Int.cast_sub] at h₂
      simp [h₂]
    · rw [Int.cast_sub] at h₂
      simp [h₂]
    · simp

/-- C2 witness: a concrete receive completing with zero bytes under an
always-continue callback does not re-arm, while the same receive with
result 1 does. -/
theorem rearm_exactly_when_witness :
    (ReceiveEvent.handle ⟨1, 3, ⟨⟨[0], 1⟩, 0, 1⟩, some fun _ _ => true⟩
        ⟨0⟩).rearm = false ∧
    (ReceiveEvent.handle ⟨1, 3, ⟨⟨[0], 1⟩, 0, 1⟩, some fun _ _ => true⟩
        ⟨1⟩).rearm = true := by
  have h₀ := rearm_exactly_when
    ⟨1, 5, SocketAddress.zeroInit, 4, some fun _ _ => true⟩
    ⟨1, 3, ⟨⟨[0], 1⟩, 0, 1⟩, some fun _ _ => true⟩
    ⟨1, 4, 0, ⟨⟨[0], 1⟩, 0, 1⟩, some fun _ _ => true⟩
    ⟨1, 0, 1000, ⟨0, 0⟩, some fun _ _ => true⟩
    ⟨0⟩ 0 _ _ _ _ rfl rfl rfl rfl
  have h₁ := rearm_exactly_when
    ⟨1, 5, SocketAddress.zeroInit, 4, some fun _ _ => true⟩
    ⟨1, 3, ⟨⟨[0], 1⟩, 0, 1⟩, some fun _ _ => true⟩
    ⟨1, 4, 0, ⟨⟨[0], 1⟩, 0, 1⟩, some fun _ _ => true⟩
    ⟨1, 0, 1000, ⟨0, 0⟩, some fun _ _ => true⟩
    ⟨1⟩ 0 _ _ _ _ rfl rfl rfl rfl
  constructor
  · rw [Bool.eq_false_iff]
    intro hc
    exact absurd (h₀.2.1.mp hc).2 (by decide)
  · exact h₁.2.1.mpr ⟨rfl, by decide⟩

/-- C4: on a timer completion at instant `now`, with `elapsed = now − start`:
if `elapsed ≥ duration` the handler is invoked with `elapsed` in (exact)
fractional seconds, and if it returns `continue` the start is set to `now`
and a fresh timeout entry is submitted; if `elapsed < duration` the handler
is not invoked and a fresh entry is submitted whose delay timespec encodes
`max(0, duration − elapsed)`. -/
theorem timer_completion_protocol (e : TimerEvent) (ctx : EventContext)
    (now : Int) (cb : EventContext → TimerResponse → Bool)
    (hcb : e.callback = some cb) :
    (e.duration ≤ now - e.startTime →
      (e.handle ctx now).invoked =
        some ⟨((now - e.startTime : Int) : ℚ) / 1000000000⟩) ∧
    (e.duration ≤ now - e.startTime →
      cb ctx ⟨((now - e.startTime : Int) : ℚ) / 1000000000⟩ = true →
      (e.handle ctx now).rearm = true ∧
      (e.handle ctx now).event.startTime = now ∧
      (e.handle ctx now).submissions =
        [⟨createKernelTimeSpec (max 0 e.duration), e.id⟩]) ∧
    (now - e.startTime < e.duration →
      (e.handle ctx now).invoked = none ∧
      (e.handle ctx now).rearm = true ∧
      (e.handle ctx now).submissions =
        [⟨createKernelTimeSpec (max 0 (e.duration - (now - e.startTime))),
          e.id⟩]) := by
  unfold TimerEvent.handle
  rw [hcb]
  dsimp only
  split_ifs with h₁ h₂
  · refine ⟨fun _ => rfl, fun _ _ => ⟨rfl, rfl, ?_⟩, fun hlt => absurd h₁ (not_le.mpr hlt)⟩
    simp [timerSubmit]
  · refine ⟨fun _ => rfl, fun _ hc => absurd hc (by simpa using h₂),
      fun hlt => absurd h₁ (not_le.mpr hlt)⟩
  · refine ⟨fun hge => absurd hge h₁, fun hge => absurd hge h₁, fun _ => ⟨rfl, rfl, ?_⟩⟩
    simp [timerSubmit]

/-- C4 witness: a 100 ns timer started at 0, completing early at `now = 30`
with result −62, is not delivered and is re-submitted with the remaining
70 ns; completing late at `now = 130` under an always-continue handler, it
is delivered with elapsed 130/1e9 s and restarted at `now`. -/
theorem timer_completion_protocol_witness :
    ((TimerEvent.handle ⟨7, 0, 100, ⟨0, 0⟩, some fun _ _ => true⟩
        ⟨-62⟩ 30).invoked = none ∧
      (TimerEvent.handle ⟨7, 0, 100, ⟨0, 0⟩, some fun _ _ => true⟩
        ⟨-62⟩ 30).rearm = true ∧
      (TimerEvent.handle ⟨7, 0, 100, ⟨0, 0⟩, some fun _ _ => true⟩
        ⟨-62⟩ 30).submissions =
        [⟨createKernelTimeSpec (max 0 (100 - (30 - 0))), 7⟩]) ∧
    (TimerEvent.handle ⟨7, 0, 100, ⟨0, 0⟩, some fun _ _ => true⟩
        ⟨-62⟩ 130).invoked = some ⟨((130 - 0 : Int) : ℚ) / 1000000000⟩ ∧
    (TimerEvent.handle ⟨7, 0, 100, ⟨0, 0⟩, some fun _ _ => true⟩
        ⟨-62⟩ 130).event.startTime = 130 := by
  have h₁ := timer_completion_protocol
    ⟨7, 0, 100, ⟨0, 0⟩, some fun _ _ => true⟩ ⟨-62⟩ 30 _ rfl
  have h₂ := timer_completion_protocol
    ⟨7, 0, 100, ⟨0, 0⟩, some fun _ _ => true⟩ ⟨-62⟩ 130 _ rfl
  exact ⟨h₁.2.2 (by decide), h₂.1 (by decide),
    (h₂.2.1 (by decide) rfl).2.1⟩

/-- C7 counterexample: the address-length field passed to the kernel on a
concrete TCP accept submission is `sizeof(socklen_t)` = 4 (the default
member initializer of `clientAddressLength`, events.h line 68), not
`sizeof(sockaddr_in)` = 16 as claimed. -/
theorem accept_length_is_socklen :
    (acceptSubmit (mkAcceptEvent 1 7 .inet none)).addrLen = sizeofSocklenT ∧
    sizeofSocklenT ≠ sizeofSockaddrIn ∧
    sizeofSocklenT ≠ sizeofSockaddrUn := by
  refine ⟨rfl, by decide, by decide⟩

/-- C7 (amended): on every accept re-arm the peer-address staging field is
cleared to zero bytes (a value-initialized `sockaddr_in`, the variant's
first alternative, regardless of address family), and the address-length
field passed with the re-submission is the record's `clientAddressLength`,
which is never updated from its initial value `sizeof(socklen_t)` = 4 —
not the size of the address family's sockaddr structure. -/
theorem accept_rearm_staging (e : AcceptEvent) (ctx : EventContext)
    (cb : EventContext → AcceptResponse → Bool) (id₀ : EventId) (srv : Int)
    (ty : SocketType) (cb₀ : Option (EventContext → AcceptResponse → Bool))
    (hcb : e.callback = some cb)
    (hcont : cb ctx ⟨ctx.result, e.clientAddress⟩ = true)
    (hres : 0 < ctx.result) :
    (e.handle ctx).submissions =
      [⟨e.server, SocketAddress.zeroInit, e.clientAddressLength, e.id⟩] ∧
    (e.handle ctx).event.clientAddress = SocketAddress.zeroInit ∧
    (e.handle ctx).event.clientAddressLength = e.clientAddressLength ∧
    (mkAcceptEvent id₀ srv ty cb₀).clientAddressLength = sizeofSocklenT := by
  unfold AcceptEvent.handle
  rw [hcb]
  dsimp only
  rw [if_pos ⟨hcont, hres⟩]
  exact ⟨rfl, rfl, rfl, rfl⟩

/-- C7 witness: a concrete Unix-domain accept event re-armed after a
successful completion stages a zeroed `sockaddr_in` and keeps address
length 4. -/
theorem accept_rearm_staging_witness :
    (AcceptEvent.handle
        ⟨2, 9, SocketAddress.unix ⟨1, [47]⟩, 4, some fun _ _ => true⟩
        ⟨11⟩).submissions =
      [⟨9, SocketAddress.zeroInit, 4, 2⟩] ∧
    (mkAcceptEvent 3 9 .unix none).clientAddressLength = sizeofSocklenT := by
  have h := accept_rearm_staging
    ⟨2, 9, SocketAddress.unix ⟨1, [47]⟩, 4, some fun _ _ => true⟩
    ⟨11⟩ _ 3 9 .unix none rfl rfl (by decide)
  exact ⟨h.1, h.2.2.2⟩

/-- C10 counterexample: a timer submitted with an empty continuation whose
completion arrives before the deadline (`elapsed = 50 < duration = 100`)
re-arms instead of being removed — the early-completion branch of
`TimerEvent::handle` reschedules without ever consulting the callback. -/
theorem empty_callback_timer_rearms :
    (TimerEvent.handle ⟨1, 0, 100, ⟨0, 0⟩, none⟩ ⟨-62⟩ 50).rearm = true ∧
    (TimerEvent.handle ⟨1, 0, 100, ⟨0, 0⟩, none⟩ ⟨-62⟩ 50).invoked = none := by
  exact ⟨rfl, rfl⟩

/-- C10 (amended): every handler invoked with an empty continuation returns
`stop` without invoking anything and without re-submitting — except the
timer, which returns `stop` only when its deadline has passed; an early
timer completion re-arms (without invoking anything) even with an empty
continuation. -/
theorem empty_callback_stops (c : CloseEvent) (t : TimerEvent)
    (a : AcceptEvent) (cn : ConnectEvent) (rv : ReceiveEvent) (sd : SendEvent)
    (op : OpenFileEvent) (rf : ReadFileEvent) (wf : WriteFileEvent)
    (st : ReadFileStatsEvent) (ctx : EventContext) (now : Int)
    (hc : c.callback = none) (ht : t.callback = none) (ha : a.callback = none)
    (hcn : cn.callback = none) (hrv : rv.callback = none)
    (hsd : sd.callback = none) (hop : op.callback = none)
    (hrf : rf.callback = none) (hwf : wf.callback = none)
    (hst : st.callback = none) :
    c.handle ctx = (false, none) ∧
    (a.handle ctx).rearm = false ∧ (a.handle ctx).invoked = none ∧
    (a.handle ctx).submissions = [] ∧
    cn.handle ctx = (false, none) ∧
    (rv.handle ctx).rearm = false ∧ (rv.handle ctx).invoked = none ∧
    (rv.handle ctx).submissions = [] ∧
    sd.handle ctx = (false, none) ∧
    op.handle ctx = (false, none) ∧
    (rf.handle ctx).rearm = false ∧ (rf.handle ctx).invoked = none ∧
    (rf.handle ctx).submissions = [] ∧
    wf.handle ctx = (false, none) ∧
    st.handle ctx = (false, none) ∧
    (t.handle ctx now).invoked = none ∧
    (t.duration ≤ now - t.startTime → (t.handle ctx now).rearm = false) ∧
    (now - t.startTime < t.duration → (t.handle ctx now).rearm = true) := by
  unfold CloseEvent.handle AcceptEvent.handle ConnectEvent.handle
    ReceiveEvent.handle SendEvent.handle OpenFileEvent.handle
    ReadFileEvent.handle WriteFileEvent.handle ReadFileStatsEvent.handle
    TimerEvent.handle
  rw [hc, ht, ha, hcn, hrv, hsd, hop, hrf, hwf, hst]
  dsimp only
  split_ifs with h₁
  · exact ⟨rfl, rfl, rfl, rfl, rfl, rfl, rfl, rfl, rfl, rfl, rfl, rfl, rfl,
      rfl, rfl, rfl, fun _ => rfl, fun hlt => absurd h₁ (not_le.mpr hlt)⟩
  · exact ⟨rfl, rfl, rfl, rfl, rfl, rfl, rfl, rfl, rfl, rfl, rfl, rfl, rfl,
      rfl, rfl, rfl, fun hge => absurd hge h₁, fun _ => rfl⟩

/-- C10 witness: concrete empty-continuation events; the receive stops on
its first completion, the early timer completion re-arms. -/
theorem empty_callback_stops_witness :
    (ReceiveEvent.handle ⟨4, 3, ⟨⟨[0], 1⟩, 0, 1⟩, none⟩ ⟨5⟩).rearm = false ∧
    (TimerEvent.handle ⟨5, 0, 100, ⟨0, 0⟩, none⟩ ⟨5⟩ 250).rearm = false ∧
    (TimerEvent.handle ⟨5, 0, 100, ⟨0, 0⟩, none⟩ ⟨5⟩ 50).rearm = true := by
  have h₁ := empty_callback_stops ⟨1, 1, none⟩ ⟨5, 0, 100, ⟨0, 0⟩, none⟩
    ⟨2, 5, SocketAddress.zeroInit, 4, none⟩
    ⟨3, 6, SocketAddress.zeroInit, none⟩ ⟨4, 3, ⟨⟨[0], 1⟩, 0, 1⟩, none⟩
    ⟨6, 3, ⟨⟨[0], 1⟩, 0, 1⟩, none⟩ ⟨7, [], 0, 0, none⟩
    ⟨8, 2, 0, ⟨⟨[0], 1⟩, 0, 1⟩, none⟩ ⟨9, 2, ⟨⟨[0], 1⟩, 0, 1⟩, none⟩
    ⟨10, [], 0, none⟩ ⟨5⟩ 250 rfl rfl rfl rfl rfl rfl rfl rfl rfl rfl
  have h₂ := empty_callback_stops ⟨1, 1, none⟩ ⟨5, 0, 100, ⟨0, 0⟩, none⟩
    ⟨2, 5, SocketAddress.zeroInit, 4, none⟩
    ⟨3, 6, SocketAddress.zeroInit, none⟩ ⟨4, 3, ⟨⟨[0], 1⟩, 0, 1⟩, none⟩
    ⟨6, 3, ⟨⟨[0], 1⟩, 0, 1⟩, none⟩ ⟨7, [], 0, 0, none⟩
    ⟨8, 2, 0, ⟨⟨[0], 1⟩, 0, 1⟩, none⟩ ⟨9, 2, ⟨⟨[0], 1⟩, 0, 1⟩, none⟩
    ⟨10, [], 0, none⟩ ⟨5⟩ 50 rfl rfl rfl rfl rfl rfl rfl rfl rfl rfl
  exact ⟨h₁.2.2.2.2.2.1, h₁.2.2.2.2.2.2.2.2.2.2.2.2.2.2.2.2.1 (by decide),
    h₂.2.2.2.2.2.2.2.2.2.2.2.2.2.2.2.2.2 (by decide)⟩

theorem regInv_init : RegInv RegState.init := by
  refine ⟨List.nodup_nil, List.nodup_nil, ?_, ?_⟩ <;> intro id hid <;> cases hid

theorem regStepFn_preserves {s s₁ : RegState} {st : RegStep}
    (hinv : RegInv s) (hstep : regStepFn s st = some s₁) : RegInv s₁ := by
  obtain ⟨hne, hni, hsub, hbound⟩ := hinv
  cases st with
  | submitOk =>
    simp only [regStepFn, Option.some.injEq] at hstep
    subst hstep
    refine ⟨?_, ?_, ?_, ?_⟩
    · exact List.nodup_cons.mpr
        ⟨fun hmem => absurd (hbound _ hmem) (lt_irrefl _), hne⟩
    · exact List.nodup_cons.mpr
        ⟨fun hmem => absurd (hbound _ (hsub _ hmem)) (lt_irrefl _), hni⟩
    · intro id hid
      rcases List.mem_cons.mp hid with h | h
      · exact List.mem_cons.mpr (Or.inl h)
      · exact List.mem_cons.mpr (Or.inr (hsub _ h))
    · intro id hid
      rcases List.mem_cons.mp hid with h | h
      · subst h
        exact Nat.lt_succ_self _
      · exact Nat.lt_trans (hbound _ h) (Nat.lt_succ_self _)
  | submitFail =>
    simp only [regStepFn, Option.some.injEq] at hstep
    subst hstep
    exact ⟨hne, hni, hsub,
      fun id hid => Nat.lt_trans (hbound _ hid) (Nat.lt_succ_self _)⟩
  | complete id rearm =>
    simp only [regStepFn] at hstep
    by_cases hmem : id ∈ s.inflight
    · rw [if_pos hmem] at hstep
      cases rearm with
      | true =>
        simp only [if_pos, Option.some.injEq] at hstep
        subst hstep
        refine ⟨hne, ?_, ?_, hbound⟩
        · exact List.nodup_cons.mpr
            ⟨fun hc => ((hni.mem_erase_iff).mp hc).1 rfl, hni.erase id⟩
        · intro x hx
          rcases List.mem_cons.mp hx with h | h
          · subst h
            exact hsub _ hmem
          · exact hsub _ (List.mem_of_mem_erase h)
      | false =>
        simp only [if_neg, Option.some.injEq, Bool.false_eq_true,
          not_false_iff, ite_false] at hstep
        subst hstep
        refine ⟨hne.erase id, hni.erase id, ?_, ?_⟩
        · intro x hx
          obtain ⟨hxne, hxi⟩ := (hni.mem_erase_iff).mp hx
          exact (hne.mem_erase_iff).mpr ⟨hxne, hsub _ hxi⟩
        · intro x hx
          exact hbound _ (List.mem_of_mem_erase hx)
    · rw [if_neg hmem] at hstep
      cases hstep

theorem regRun_preserves {steps : List RegStep} :
    ∀ {s s₁ : RegState}, RegInv s → regRun s steps = some s₁ → RegInv s₁ := by
  induction steps with
  | nil =>
    intro s s₁ hinv hrun
    simp only [regRun, Option.some.injEq] at hrun
    subst hrun
    exact hinv
  | cons st rest ih =>
    intro s s₁ hinv hrun
    simp only [regRun] at hrun
    rcases hstep : regStepFn s st with _ | s₂
    · rw [hstep] at hrun
      cases hrun
    · rw [hstep] at hrun
      exact ih (regStepFn_preserves hinv hstep) hrun

/-- C1 counterexample: a completion whose user-data (here 5) resolves to no
registered record is not rejected with an internal error — `EventLoop::run`
looks it up with `mEvents[eventId]`, which inserts a null `unique_ptr`, and
then calls `handle` through the null pointer (undefined behavior). -/
theorem unresolved_completion_not_rejected :
    runDispatch [] (fun _ => false) 5 = .nullHandleCall ∧
    DispatchOutcome.nullHandleCall ≠ DispatchOutcome.rejectedInternalError :=
  ⟨rfl, by decide⟩

/-- C1 (amended): in every state reachable by the reactor's record
lifecycle — submissions stamp each entry with the identifier of a record
registered at that moment, failed submissions are rolled back, completions
remove or re-arm — every in-flight completion's user-data resolves to a
registered record, and the main loop dispatches it to that record's
handler; the reactor however performs no resolution check, so an
unresolvable completion would be a null-pointer handler call, not an
internal-error rejection. -/
theorem completion_resolves (steps : List RegStep) (s : RegState)
    (h : regRun RegState.init steps = some s) (id : EventId)
    (hid : id ∈ s.inflight) (verdict : EventId → Bool) :
    id ∈ s.events ∧
    runDispatch s.events verdict id = .dispatched (verdict id) := by
  have hinv := regRun_preserves regInv_init h
  have hmem := hinv.2.2.1 id hid
  refine ⟨hmem, ?_⟩
  unfold runDispatch
  rw [if_pos hmem]

/-- C1 witness: after one successful submission from the initial state,
identifier 1 is in flight, registered, and its completion dispatches. -/
theorem completion_resolves_witness :
    (1 : EventId) ∈ (RegState.mk 2 [1] [1]).events ∧
    runDispatch (RegState.mk 2 [1] [1]).events (fun _ => false) 1 =
      .dispatched false :=
  completion_resolves [.submitOk] ⟨2, [1], [1]⟩ rfl 1 (by decide)
    (fun _ => false)

end EventLoopModel
